import Mathlib

/-!
Shallow embedding of the ublk control-plane client (crates `ublk`, the older
library under `src/`, and the `ublkctl` front-end helpers) for verifying its
wire codec, option clamping, completion handling and request-id discipline.

Machine integers (`u16`, `u32`, `u64`, `i32`) are embedded as `Nat` / `Int`;
overflow is modelled explicitly (`% 2 ^ 64`) where an operation can actually
wrap (the per-session `uniq` counter).  Rust panics (`expect`, `assert!`) are
embedded as `Option`-valued results, `none` marking the panic.
-/

/-- Domain flag set `DeviceFlags` (bitflags over `u64`, identical in both the
`ublk` crate at `src/ublk/src/control/mod.rs` and the older library at
`src/src/control/mod.rs`): `ZeroCopy = 1 <<< 0`,
`ForceIouCmdCompleteInTask = 1 <<< 1`, `NeedGetData = 1 <<< 2`.  Every value
of this bitflags type arising in the code is generated from the three named
constants by set operations or by `from_bits_truncate`, so a value is exactly
a subset of the three named bits. -/
structure DeviceFlags where
  zeroCopy : Bool
  forceIouCmdCompleteInTask : Bool
  needGetData : Bool
deriving DecidableEq

/-- `DeviceFlags::empty()`. -/
def DeviceFlags.empty : DeviceFlags :=
  { zeroCopy := false, forceIouCmdCompleteInTask := false, needGetData := false }

/-- `DeviceFlags::bits()`: the raw `u64` with bit 0 = `ZeroCopy`,
bit 1 = `ForceIouCmdCompleteInTask`, bit 2 = `NeedGetData`. -/
def DeviceFlags.bits (f : DeviceFlags) : Nat :=
  (cond f.zeroCopy 1 0) + (cond f.forceIouCmdCompleteInTask 2 0) +
    (cond f.needGetData 4 0)

/-- `DeviceFlags::from_bits_truncate(raw)`: keep the three recognized bits of
the raw `u64`, silently dropping all others (bitflags truncate semantics). -/
def DeviceFlags.fromBitsTruncate (raw : Nat) : DeviceFlags :=
  { zeroCopy := raw.testBit 0
    forceIouCmdCompleteInTask := raw.testBit 1
    needGetData := raw.testBit 2 }

/-- Domain attribute set `DeviceAttr` (bitflags over `u32`,
`src/ublk/src/control/mod.rs`): `ReadOnly = 1 <<< 0`, `Rotational = 1 <<< 1`,
`VolatileCache = 1 <<< 2`, `Fua = 1 <<< 3`. -/
structure DeviceAttr where
  readOnly : Bool
  rotational : Bool
  volatileCache : Bool
  fua : Bool
deriving DecidableEq

/-- `DeviceAttr::bits()`. -/
def DeviceAttr.bits (a : DeviceAttr) : Nat :=
  (cond a.readOnly 1 0) + (cond a.rotational 2 0) + (cond a.volatileCache 4 0) +
    (cond a.fua 8 0)

/-- `DeviceAttr::from_bits_truncate(raw)`. -/
def DeviceAttr.fromBitsTruncate (raw : Nat) : DeviceAttr :=
  { readOnly := raw.testBit 0
    rotational := raw.testBit 1
    volatileCache := raw.testBit 2
    fua := raw.testBit 3 }

/-- Wire device-info record `DevInfo` (`src/ublk/src/control/sys.rs`,
`repr(C)`).  The older library's `WireDevInfo` (`src/src/control/sys.rs`) has
the identical field list and layout, so this one structure embeds both.
Field widths: `nr_hw_queues`, `queue_depth`, `state`, `pad0` are `u16`;
`max_io_buf_bytes`, `dev_id`, `pad1` are `u32`; `ublksrv_pid` is `i32`;
`flags` and the four reserved words are `u64`. -/
structure DevInfo where
  nr_hw_queues : Nat
  queue_depth : Nat
  state : Nat
  pad0 : Nat
  max_io_buf_bytes : Nat
  dev_id : Nat
  ublksrv_pid : Int
  pad1 : Nat
  flags : Nat
  unused0 : Nat
  unused1 : Nat
  unused2 : Nat
  unused3 : Nat
deriving DecidableEq

/-- `DevInfo::NEW_DEV_ID`: `u32::MAX`, interpreted as `-1` by the kernel. -/
def DevInfo.NEW_DEV_ID : Nat := 2 ^ 32 - 1

/-- `DevInfo::STATE_DEV_DEAD`. -/
def DevInfo.STATE_DEV_DEAD : Nat := 0

/-- `DevInfo::STATE_DEV_LIVE`. -/
def DevInfo.STATE_DEV_LIVE : Nat := 1

/-- `DevInfo::MAX_BUF_SIZE = 1024 << 10`. -/
def DevInfo.MAX_BUF_SIZE : Nat := 1024 <<< 10

/-- `DevInfo::MAX_NR_HW_QUEUES`. -/
def DevInfo.MAX_NR_HW_QUEUES : Nat := 32

/-- `DevInfo::MAX_QUEUE_DEPTH`. -/
def DevInfo.MAX_QUEUE_DEPTH : Nat := 1024

/-- `DevInfo::DEFAULT_BUF_SIZE = 512 << 10`. -/
def DevInfo.DEFAULT_BUF_SIZE : Nat := 512 <<< 10

/-- `DevInfo::DEFAULT_NR_HW_QUEUES`. -/
def DevInfo.DEFAULT_NR_HW_QUEUES : Nat := 1

/-- `DevInfo::DEFAULT_QUEUE_DEPTH`. -/
def DevInfo.DEFAULT_QUEUE_DEPTH : Nat := 256

/-- `DevInfo::new()` = `DevInfo::default()`: every field zero. -/
def DevInfo.new : DevInfo :=
  { nr_hw_queues := 0, queue_depth := 0, state := 0, pad0 := 0
    max_io_buf_bytes := 0, dev_id := 0, ublksrv_pid := 0, pad1 := 0
    flags := 0, unused0 := 0, unused1 := 0, unused2 := 0, unused3 := 0 }

/-- Builder method `DevInfo::dev_id` (plain field store, no validation). -/
def DevInfo.set_dev_id (info : DevInfo) (dev_id : Nat) : DevInfo :=
  { info with dev_id := dev_id }

/-- Builder method `DevInfo::nr_hw_queues`. -/
def DevInfo.set_nr_hw_queues (info : DevInfo) (nr_hw_queues : Nat) : DevInfo :=
  { info with nr_hw_queues := nr_hw_queues }

/-- Builder method `DevInfo::queue_depth`. -/
def DevInfo.set_queue_depth (info : DevInfo) (queue_depth : Nat) : DevInfo :=
  { info with queue_depth := queue_depth }

/-- Builder method `DevInfo::max_io_buf_bytes`. -/
def DevInfo.set_max_io_buf_bytes (info : DevInfo) (max_io_buf_bytes : Nat) : DevInfo :=
  { info with max_io_buf_bytes := max_io_buf_bytes }

/-- Builder method `DevInfo::flags`. -/
def DevInfo.set_flags (info : DevInfo) (flags : Nat) : DevInfo :=
  { info with flags := flags }

/-- Domain type `DeviceInfo` of the `ublk` crate
(`src/ublk/src/control/mod.rs`): device state reduced to the boolean
`active`. -/
structure DeviceInfo where
  dev_id : Nat
  srv_pid : Int
  active : Bool
  nr_hw_queues : Nat
  queue_depth : Nat
  max_io_buf_bytes : Nat
  flags : DeviceFlags
deriving DecidableEq

/-- Decode `impl From<DevInfo> for DeviceInfo`
(`src/ublk/src/control/sys.rs`): `active := state == STATE_DEV_LIVE`, flags
decoded with truncate semantics; total, never fails. -/
def DeviceInfo.ofDevInfo (info : DevInfo) : DeviceInfo :=
  { dev_id := info.dev_id
    srv_pid := info.ublksrv_pid
    active := info.state == DevInfo.STATE_DEV_LIVE
    nr_hw_queues := info.nr_hw_queues
    queue_depth := info.queue_depth
    max_io_buf_bytes := info.max_io_buf_bytes
    flags := DeviceFlags.fromBitsTruncate info.flags }

/-- Builder `DeviceOptions` of the `ublk` crate
(`src/ublk/src/control/mod.rs`). -/
structure DeviceOptions where
  dev_id : Nat
  nr_hw_queues : Nat
  queue_depth : Nat
  max_io_buf_bytes : Nat
  flags : DeviceFlags
deriving DecidableEq

/-- `DeviceOptions::MAX_NR_HW_QUEUES`. -/
def DeviceOptions.MAX_NR_HW_QUEUES : Nat := DevInfo.MAX_NR_HW_QUEUES

/-- `DeviceOptions::MAX_QUEUE_DEPTH`. -/
def DeviceOptions.MAX_QUEUE_DEPTH : Nat := DevInfo.MAX_QUEUE_DEPTH

/-- `DeviceOptions::MAX_BUF_SIZE`. -/
def DeviceOptions.MAX_BUF_SIZE : Nat := DevInfo.MAX_BUF_SIZE

/-- `DeviceOptions::new()`: sentinel `dev_id`, default sizes, empty flags. -/
def DeviceOptions.new : DeviceOptions :=
  { dev_id := DevInfo.NEW_DEV_ID
    nr_hw_queues := DevInfo.DEFAULT_NR_HW_QUEUES
    queue_depth := DevInfo.DEFAULT_QUEUE_DEPTH
    max_io_buf_bytes := DevInfo.DEFAULT_BUF_SIZE
    flags := DeviceFlags.empty }

/-- Setter `DeviceOptions::device_id` (no clamping). -/
def DeviceOptions.set_device_id (o : DeviceOptions) (dev_id : Nat) : DeviceOptions :=
  { o with dev_id := dev_id }

/-- Setter `DeviceOptions::nr_hw_queues`: stores the input when it does not
exceed `MAX_NR_HW_QUEUES`, else stores the maximum; never fails. -/
def DeviceOptions.set_nr_hw_queues (o : DeviceOptions) (nr_hw_queues : Nat) : DeviceOptions :=
  { o with nr_hw_queues :=
      if nr_hw_queues ≤ DeviceOptions.MAX_NR_HW_QUEUES then nr_hw_queues
      else DeviceOptions.MAX_NR_HW_QUEUES }

/-- Setter `DeviceOptions::queue_depth`, clamped to `MAX_QUEUE_DEPTH`. -/
def DeviceOptions.set_queue_depth (o : DeviceOptions) (queue_depth : Nat) : DeviceOptions :=
  { o with queue_depth :=
      if queue_depth ≤ DeviceOptions.MAX_QUEUE_DEPTH then queue_depth
      else DeviceOptions.MAX_QUEUE_DEPTH }

/-- Setter `DeviceOptions::max_io_buf_bytes`, clamped to `MAX_BUF_SIZE`. -/
def DeviceOptions.set_max_io_buf_bytes (o : DeviceOptions) (max_io_buf_bytes : Nat) : DeviceOptions :=
  { o with max_io_buf_bytes :=
      if max_io_buf_bytes ≤ DeviceOptions.MAX_BUF_SIZE then max_io_buf_bytes
      else DeviceOptions.MAX_BUF_SIZE }

/-- Setter `DeviceOptions::flags`. -/
def DeviceOptions.set_flags (o : DeviceOptions) (flags : DeviceFlags) : DeviceOptions :=
  { o with flags := flags }

/-- The wire record `UblkCtrl::add_device` builds before submission
(`src/ublk/src/control/mod.rs`, lines 51-56): `DevInfo::new()` followed by
the five builder calls copying the options' fields. -/
def UblkCtrl.addDeviceRecord (options : DeviceOptions) : DevInfo :=
  ((((DevInfo.new.set_dev_id options.dev_id).set_max_io_buf_bytes
      options.max_io_buf_bytes).set_nr_hw_queues
      options.nr_hw_queues).set_queue_depth
      options.queue_depth).set_flags options.flags.bits

/-- Wire basic-parameter block `DevParamBasic` (`src/ublk/src/control/sys.rs`,
`repr(C)`): `attrs` is `u32`, the four shifts are `u8`, `max_sectors` and
`chunk_sectors` are `u32`, `dev_sectors` and `virt_boundary_mask` are
`u64`. -/
structure DevParamBasic where
  attrs : Nat
  logical_bs_shift : Nat
  physical_bs_shift : Nat
  io_opt_shift : Nat
  io_min_shift : Nat
  max_sectors : Nat
  chunk_sectors : Nat
  dev_sectors : Nat
  virt_boundary_mask : Nat
deriving DecidableEq

/-- `DevParamBasic::default()`: every field zero. -/
def DevParamBasic.default : DevParamBasic :=
  { attrs := 0, logical_bs_shift := 0, physical_bs_shift := 0
    io_opt_shift := 0, io_min_shift := 0, max_sectors := 0
    chunk_sectors := 0, dev_sectors := 0, virt_boundary_mask := 0 }

/-- Wire discard-parameter block `DevParamDiscard`
(`src/ublk/src/control/sys.rs`, `repr(C)`): four `u32` fields, one `u16`
field, one reserved `u16`. -/
structure DevParamDiscard where
  discard_alignment : Nat
  discard_granularity : Nat
  max_discard_sectors : Nat
  max_write_zeroes_sectors : Nat
  max_discard_segments : Nat
  reserved0 : Nat
deriving DecidableEq

/-- `DevParamDiscard::default()`: every field zero. -/
def DevParamDiscard.default : DevParamDiscard :=
  { discard_alignment := 0, discard_granularity := 0, max_discard_sectors := 0
    max_write_zeroes_sectors := 0, max_discard_segments := 0, reserved0 := 0 }

/-- Wire parameter record `DevParams` (`src/ublk/src/control/sys.rs`,
`repr(C)`): `len` and `types` are `u32`, followed by the basic and discard
blocks. -/
structure DevParams where
  len : Nat
  types : Nat
  basic : DevParamBasic
  discard : DevParamDiscard
deriving DecidableEq

/-- `DevParams::TYPE_BASIC = 1 << 0` (mandatory on SetParams). -/
def DevParams.TYPE_BASIC : Nat := 1

/-- `DevParams::TYPE_DISCARD = 1 << 1` (optional). -/
def DevParams.TYPE_DISCARD : Nat := 2

/-- `mem::size_of::<DevParams>()` under `repr(C)`: 4 + 4 bytes header, a
32-byte basic block (offset 8), a 20-byte discard block (offset 40), padded
to the 8-byte struct alignment, giving 64 bytes. -/
def DevParams.size_bytes : Nat := 64

/-- `DevParams::empty()`: `len` set to the record size, `types` zero, both
blocks defaulted. -/
def DevParams.empty : DevParams :=
  { len := DevParams.size_bytes, types := 0
    basic := DevParamBasic.default, discard := DevParamDiscard.default }

/-- Domain discard parameters `DeviceParamDiscard`
(`src/ublk/src/control/mod.rs`). -/
structure DeviceParamDiscard where
  discard_alignment : Nat
  discard_granularity : Nat
  max_discard_sectors : Nat
  max_write_zeroes_sectors : Nat
  max_discard_segments : Nat
deriving DecidableEq

/-- Domain parameters `DeviceParams` (`src/ublk/src/control/mod.rs`): a
mandatory basic section and an optional discard section. -/
structure DeviceParams where
  attrs : DeviceAttr
  logical_bs_shift : Nat
  physical_bs_shift : Nat
  io_opt_shift : Nat
  io_min_shift : Nat
  max_sectors : Nat
  chunk_sectors : Nat
  dev_sectors : Nat
  virt_boundary_mask : Nat
  discard : Option DeviceParamDiscard
deriving DecidableEq

/-- Encode `impl From<DeviceParamDiscard> for DevParamDiscard`
(`src/ublk/src/control/sys.rs`): field-wise copy, reserved word zero. -/
def DevParamDiscard.ofDeviceParamDiscard (p : DeviceParamDiscard) : DevParamDiscard :=
  { discard_alignment := p.discard_alignment
    discard_granularity := p.discard_granularity
    max_discard_sectors := p.max_discard_sectors
    max_write_zeroes_sectors := p.max_write_zeroes_sectors
    max_discard_segments := p.max_discard_segments
    reserved0 := 0 }

/-- Encode `impl From<&DeviceParams> for DevParams`
(`src/ublk/src/control/sys.rs`): starts from `DevParams::empty()`, sets
`types = TYPE_BASIC`, copies the basic fields, and — only when the optional
discard value is present — ors in `TYPE_DISCARD` and converts the discard
block, leaving it defaulted otherwise. -/
def DevParams.ofDeviceParams (d : DeviceParams) : DevParams :=
  { len := DevParams.size_bytes
    types := DevParams.TYPE_BASIC |||
      (match d.discard with
       | some _ => DevParams.TYPE_DISCARD
       | none => 0)
    basic :=
      { attrs := d.attrs.bits
        logical_bs_shift := d.logical_bs_shift
        physical_bs_shift := d.physical_bs_shift
        io_opt_shift := d.io_opt_shift
        io_min_shift := d.io_min_shift
        max_sectors := d.max_sectors
        chunk_sectors := d.chunk_sectors
        dev_sectors := d.dev_sectors
        virt_boundary_mask := d.virt_boundary_mask }
    discard :=
      match d.discard with
      | some dd => DevParamDiscard.ofDeviceParamDiscard dd
      | none => DevParamDiscard.default }

/-- Decode `impl From<DevParams> for DeviceParams`
(`src/ublk/src/control/sys.rs`): the discard section is surfaced via
`((p.types & TYPE_DISCARD) != 0).then_some(..)`, the basic fields are copied
with `attrs` decoded by truncation; total, never fails. -/
def DeviceParams.ofDevParams (p : DevParams) : DeviceParams :=
  { attrs := DeviceAttr.fromBitsTruncate p.basic.attrs
    logical_bs_shift := p.basic.logical_bs_shift
    physical_bs_shift := p.basic.physical_bs_shift
    io_opt_shift := p.basic.io_opt_shift
    io_min_shift := p.basic.io_min_shift
    max_sectors := p.basic.max_sectors
    chunk_sectors := p.basic.chunk_sectors
    dev_sectors := p.basic.dev_sectors
    virt_boundary_mask := p.basic.virt_boundary_mask
    discard :=
      if p.types &&& DevParams.TYPE_DISCARD ≠ 0 then
        some { discard_alignment := p.discard.discard_alignment
               discard_granularity := p.discard.discard_granularity
               max_discard_sectors := p.discard.max_discard_sectors
               max_write_zeroes_sectors := p.discard.max_write_zeroes_sectors
               max_discard_segments := p.discard.max_discard_segments }
      else none }

/-- Device state of the older library (`src/src/control/mod.rs`):
`Dead = 0`, `Live = 1`. -/
inductive DeviceStatus where
  | Dead
  | Live
deriving DecidableEq

/-- `impl TryFrom<u16> for DeviceStatus` (`src/src/control/mod.rs`): `0`
decodes to `Dead`, `1` to `Live`, any other value is an error. -/
def DeviceStatus.tryFromU16 (v : Nat) : Except Unit DeviceStatus :=
  if v = 0 then Except.ok DeviceStatus.Dead
  else if v = 1 then Except.ok DeviceStatus.Live
  else Except.error ()

/-- Domain type `DeviceInfo` of the older library
(`src/src/control/mod.rs`): carries a two-valued `DeviceStatus` instead of a
boolean. -/
structure OldDeviceInfo where
  dev_id : Nat
  srv_pid : Int
  state : DeviceStatus
  nr_hw_queues : Nat
  queue_depth : Nat
  max_io_buf_bytes : Nat
  flags : DeviceFlags
deriving DecidableEq

/-- Decode `impl Into<DeviceInfo> for WireDevInfo`
(`src/src/control/sys.rs`): the state field goes through
`try_into().expect("valid device status")`, so a state value other than 0 or
1 panics; the panic is embedded as `none`. -/
def OldDeviceInfo.ofWire (w : DevInfo) : Option OldDeviceInfo :=
  match DeviceStatus.tryFromU16 w.state with
  | Except.ok st =>
      some { dev_id := w.dev_id
             srv_pid := w.ublksrv_pid
             state := st
             nr_hw_queues := w.nr_hw_queues
             queue_depth := w.queue_depth
             max_io_buf_bytes := w.max_io_buf_bytes
             flags := DeviceFlags.fromBitsTruncate w.flags }
  | Except.error _ => none

/-- One ring completion as observed by the driver code: the echoed
`user_data` request id and the raw `i32` result. -/
structure Completion where
  user_data : Nat
  result : Int
deriving DecidableEq

/-- The completion-handling tail of `CtrlCmd::submit_and_wait`
(`src/ublk/src/control/sys.rs`, lines 132-142; `submit_cmd` in
`src/src/control/mod.rs` is identical): assert the completion's echoed
`user_data` equals the request id just submitted (the failed assertion — a
programmer error, not a recoverable error value — is embedded as the outer
`none`), then map result `0` to success and any non-zero result `res` to the
OS error built by `io::Error::from_raw_os_error(-res)`, returned directly to
the caller with no retry. -/
def submitAndWait (uniq : Nat) (cqe : Completion) : Option (Except Int Unit) :=
  if cqe.user_data = uniq then
    some (if cqe.result = 0 then Except.ok () else Except.error (-cqe.result))
  else none

/-- Session state of `UblkCtrl` relevant to request ids: the per-session
`uniq` counter (`u64`, so incrementing wraps modulo `2 ^ 64`). -/
structure UblkCtrl where
  uniq : Nat
deriving DecidableEq

/-- `UblkCtrl::new()` starts the session with `uniq = 0`
(`src/ublk/src/control/mod.rs`, line 38). -/
def UblkCtrl.init : UblkCtrl :=
  { uniq := 0 }

/-- The `self.uniq += 1` performed by every public operation once per
submitted command, on the `u64` counter. -/
def UblkCtrl.bumpUniq (s : UblkCtrl) : UblkCtrl :=
  { uniq := (s.uniq + 1) % 2 ^ 64 }

/-- Session state after `n` submitted commands; the id used by the k-th
submission (k ≥ 1) is `(uniqAfter k).uniq`. -/
def UblkCtrl.uniqAfter (n : Nat) : UblkCtrl :=
  UblkCtrl.bumpUniq^[n] UblkCtrl.init

/-- Affinity decode `get_cpu_list` (`src/ublkctl/src/devinfo.rs`): walk the
cpu indices `0..cores` and collect those whose bit is set in the fixed-size
CPU-set bitmap (`libc::CPU_ISSET`); the bitmap is embedded as the natural
number with those bits. -/
def get_cpu_list (cores : Nat) (cpu_set : Nat) : List Nat :=
  (List.range cores).filter (fun cpu => cpu_set.testBit cpu)

/-- Truncating decode only looks at the low three bits of the raw value. -/
theorem DeviceFlags.fromBitsTruncate_mod (n : Nat) :
    DeviceFlags.fromBitsTruncate n = DeviceFlags.fromBitsTruncate (n % 8) := by
  have h8 : n % 8 = n % 2 ^ 3 := by norm_num
  unfold DeviceFlags.fromBitsTruncate
  rw [h8, Nat.testBit_mod_two_pow, Nat.testBit_mod_two_pow, Nat.testBit_mod_two_pow]
  simp

/-- `bits` is a left inverse of the truncating decode below 8. -/
theorem DeviceFlags.bits_fromBitsTruncate_lt :
    ∀ m, m < 8 → (DeviceFlags.fromBitsTruncate m).bits = m := by decide

/-- The bit pattern of a truncating decode is the low three bits of the raw
value. -/
theorem DeviceFlags.bits_fromBitsTruncate (n : Nat) :
    (DeviceFlags.fromBitsTruncate n).bits = n % 8 := by
  rw [DeviceFlags.fromBitsTruncate_mod]
  exact DeviceFlags.bits_fromBitsTruncate_lt _ (Nat.mod_lt n (by norm_num))

/-- A flag set's bit pattern stays below 8. -/
theorem DeviceFlags.bits_lt (f : DeviceFlags) : f.bits < 8 := by
  rcases f with ⟨z, t, n⟩
  cases z <;> cases t <;> cases n <;> decide

/-- Decoding the bit pattern of a flag set gives back the flag set. -/
theorem DeviceFlags.fromBitsTruncate_bits (f : DeviceFlags) :
    DeviceFlags.fromBitsTruncate f.bits = f := by
  rcases f with ⟨z, t, n⟩
  cases z <;> cases t <;> cases n <;> decide

/-- The `uniq` counter after `n` submitted commands is `n` modulo `2 ^ 64`. -/
theorem UblkCtrl.uniqAfter_uniq (n : Nat) :
    (UblkCtrl.uniqAfter n).uniq = n % 2 ^ 64 := by
  induction n with
  | zero => rfl
  | succ k ih =>
      rw [UblkCtrl.uniqAfter, Function.iterate_succ_apply']
      show (UblkCtrl.bumpUniq (UblkCtrl.uniqAfter k)).uniq = _
      simp only [UblkCtrl.bumpUniq]
      rw [ih, Nat.add_mod k 1, Nat.mod_eq_of_lt (show (1 : Nat) < 2 ^ 64 by norm_num)]

/-- C1: for every `DeviceOptions` within the advertised maxima
(`nr_hw_queues ≤ 32`, `queue_depth ≤ 1024`, `max_io_buf_bytes ≤ 1 MiB`),
decoding the wire device-info record that `add_device` builds from those
options yields a `DeviceInfo` whose `nr_hw_queues`, `queue_depth`,
`max_io_buf_bytes` and `flags` equal the options' fields bit-for-bit. -/
theorem c1_options_info_roundtrip (o : DeviceOptions)
    (_hq : o.nr_hw_queues ≤ 32) (_hd : o.queue_depth ≤ 1024)
    (_hb : o.max_io_buf_bytes ≤ 1024 * 1024) :
    (DeviceInfo.ofDevInfo (UblkCtrl.addDeviceRecord o)).nr_hw_queues = o.nr_hw_queues
    ∧ (DeviceInfo.ofDevInfo (UblkCtrl.addDeviceRecord o)).queue_depth = o.queue_depth
    ∧ (DeviceInfo.ofDevInfo (UblkCtrl.addDeviceRecord o)).max_io_buf_bytes = o.max_io_buf_bytes
    ∧ (DeviceInfo.ofDevInfo (UblkCtrl.addDeviceRecord o)).flags = o.flags := by
  refine ⟨rfl, rfl, rfl, ?_⟩
  exact DeviceFlags.fromBitsTruncate_bits o.flags

/-- Witness for C1 at a concrete in-range `DeviceOptions` value. -/
theorem c1_witness :
    (DeviceInfo.ofDevInfo (UblkCtrl.addDeviceRecord
      { dev_id := 5, nr_hw_queues := 4, queue_depth := 128,
        max_io_buf_bytes := 4096,
        flags := { zeroCopy := true, forceIouCmdCompleteInTask := false,
                   needGetData := true } })).nr_hw_queues = 4
    ∧ (DeviceInfo.ofDevInfo (UblkCtrl.addDeviceRecord
      { dev_id := 5, nr_hw_queues := 4, queue_depth := 128,
        max_io_buf_bytes := 4096,
        flags := { zeroCopy := true, forceIouCmdCompleteInTask := false,
                   needGetData := true } })).queue_depth = 128
    ∧ (DeviceInfo.ofDevInfo (UblkCtrl.addDeviceRecord
      { dev_id := 5, nr_hw_queues := 4, queue_depth := 128,
        max_io_buf_bytes := 4096,
        flags := { zeroCopy := true, forceIouCmdCompleteInTask := false,
                   needGetData := true } })).max_io_buf_bytes = 4096
    ∧ (DeviceInfo.ofDevInfo (UblkCtrl.addDeviceRecord
      { dev_id := 5, nr_hw_queues := 4, queue_depth := 128,
        max_io_buf_bytes := 4096,
        flags := { zeroCopy := true, forceIouCmdCompleteInTask := false,
                   needGetData := true } })).flags
        = { zeroCopy := true, forceIouCmdCompleteInTask := false,
            needGetData := true } := by
  exact c1_options_info_roundtrip
    { dev_id := 5, nr_hw_queues := 4, queue_depth := 128,
      max_io_buf_bytes := 4096,
      flags := { zeroCopy := true, forceIouCmdCompleteInTask := false,
                 needGetData := true } }
    (by norm_num) (by norm_num) (by norm_num)

/-- C2: encoding `DeviceParams` always sets the basic type bit, sets the
discard type bit and fills the discard block from the optional value exactly
when it is present (leaving the block defaulted and the bit clear when it is
`none`); decoding a raw record surfaces `some` discard parameters exactly
when the discard bit of `types` is set, and `none` regardless of the bytes
in the discard region when it is clear. -/
theorem c2_params_discard_codec (d : DeviceParams) (p : DevParams) :
    ((DevParams.ofDeviceParams d).types &&& DevParams.TYPE_BASIC = DevParams.TYPE_BASIC)
    ∧ ((DevParams.ofDeviceParams d).types &&& DevParams.TYPE_DISCARD
        = if d.discard.isSome then DevParams.TYPE_DISCARD else 0)
    ∧ ((DevParams.ofDeviceParams d).discard
        = match d.discard with
          | some dd => DevParamDiscard.ofDeviceParamDiscard dd
          | none => DevParamDiscard.default)
    ∧ ((DeviceParams.ofDevParams p).discard
        = if p.types &&& DevParams.TYPE_DISCARD = 0 then none
          else some { discard_alignment := p.discard.discard_alignment
                      discard_granularity := p.discard.discard_granularity
                      max_discard_sectors := p.discard.max_discard_sectors
                      max_write_zeroes_sectors := p.discard.max_write_zeroes_sectors
                      max_discard_segments := p.discard.max_discard_segments }) := by
  refine ⟨?_, ?_, ?_, ?_⟩
  · cases hd : d.discard <;>
      simp [DevParams.ofDeviceParams, hd, DevParams.TYPE_BASIC, DevParams.TYPE_DISCARD]
  · cases hd : d.discard
    · simp [DevParams.ofDeviceParams, hd, DevParams.TYPE_BASIC, DevParams.TYPE_DISCARD]
    · simp [DevParams.ofDeviceParams, hd, DevParams.TYPE_BASIC, DevParams.TYPE_DISCARD]
      decide
  · cases hd : d.discard <;> simp [DevParams.ofDeviceParams, hd]
  · by_cases h : p.types &&& DevParams.TYPE_DISCARD = 0 <;>
      simp [DeviceParams.ofDevParams, h]

/-- C3: decoding a raw `u64` flags value never fails and produces the set of
exactly the recognized bits (bit 0 `ZeroCopy`, bit 1
`ForceIouCmdCompleteInTask`, bit 2 `NeedGetData`) set in the raw value, its
bit pattern being the raw value's low three bits; any extra unknown bits are
dropped, so every subset of the three flags round-trips through its bit
pattern even in the presence of unknown bits. -/
theorem c3_flags_decode (raw extra : Nat) (f : DeviceFlags) :
    DeviceFlags.fromBitsTruncate raw
      = { zeroCopy := raw.testBit 0, forceIouCmdCompleteInTask := raw.testBit 1,
          needGetData := raw.testBit 2 }
    ∧ (DeviceFlags.fromBitsTruncate raw).bits = raw % 8
    ∧ DeviceFlags.fromBitsTruncate (f.bits + 8 * extra) = f := by
  refine ⟨rfl, DeviceFlags.bits_fromBitsTruncate raw, ?_⟩
  rw [DeviceFlags.fromBitsTruncate_mod]
  have hm : (f.bits + 8 * extra) % 8 = f.bits % 8 := by omega
  rw [hm, Nat.mod_eq_of_lt (DeviceFlags.bits_lt f)]
  exact DeviceFlags.fromBitsTruncate_bits f

/-- C4: each `DeviceOptions` setter clamps its input to the advertised
maximum — the input is stored unchanged when it does not exceed the maximum
(32 hardware queues, queue depth 1024, 1 MiB buffer) and the maximum is
stored otherwise, never an error — so in particular `nr_hw_queues 10000`
yields 32, `queue_depth 5000` yields 1024, `max_io_buf_bytes (16 MiB)`
yields 1 MiB, and a field set through its setter never exceeds its
maximum. -/
theorem c4_clamping (o : DeviceOptions) (q d b : Nat) :
    ((o.set_nr_hw_queues q).nr_hw_queues = min q DeviceOptions.MAX_NR_HW_QUEUES)
    ∧ ((o.set_queue_depth d).queue_depth = min d DeviceOptions.MAX_QUEUE_DEPTH)
    ∧ ((o.set_max_io_buf_bytes b).max_io_buf_bytes = min b DeviceOptions.MAX_BUF_SIZE)
    ∧ ((o.set_nr_hw_queues q).nr_hw_queues ≤ DeviceOptions.MAX_NR_HW_QUEUES)
    ∧ ((o.set_queue_depth d).queue_depth ≤ DeviceOptions.MAX_QUEUE_DEPTH)
    ∧ ((o.set_max_io_buf_bytes b).max_io_buf_bytes ≤ DeviceOptions.MAX_BUF_SIZE)
    ∧ ((DeviceOptions.new.set_nr_hw_queues 10000).nr_hw_queues = 32)
    ∧ ((DeviceOptions.new.set_queue_depth 5000).queue_depth = 1024)
    ∧ ((DeviceOptions.new.set_max_io_buf_bytes (16 * 1024 * 1024)).max_io_buf_bytes
        = 1024 * 1024) := by
  refine ⟨?_, ?_, ?_, ?_, ?_, ?_, by decide, by decide, by decide⟩ <;>
    simp only [DeviceOptions.set_nr_hw_queues, DeviceOptions.set_queue_depth,
      DeviceOptions.set_max_io_buf_bytes, DeviceOptions.MAX_NR_HW_QUEUES,
      DeviceOptions.MAX_QUEUE_DEPTH, DeviceOptions.MAX_BUF_SIZE,
      DevInfo.MAX_NR_HW_QUEUES, DevInfo.MAX_QUEUE_DEPTH, DevInfo.MAX_BUF_SIZE] <;>
    split <;>
    omega

/-- C5 counterexample: the older library's device-info decode
(`impl Into<DeviceInfo> for WireDevInfo`, `src/src/control/sys.rs`) panics —
embedded as `none` — on the wire record whose state field is 2, refuting
"no decode path ever fails, including records whose state field is neither 0
nor 1". -/
theorem c5_state_decode_counterexample :
    OldDeviceInfo.ofWire { DevInfo.new with state := 2 } = none := by decide

/-- C5 as amended: the newer library's device-info decode is total — it maps
every record, whatever its state field, to a `DeviceInfo`, active exactly
when the state is 1 — while the older library's decode succeeds exactly when
the state field is 0 or 1 and panics otherwise. -/
theorem c5_codec_totality (w : DevInfo) :
    (DeviceInfo.ofDevInfo w).active = (w.state == 1)
    ∧ (OldDeviceInfo.ofWire w).isSome = (w.state == 0 || w.state == 1) := by
  refine ⟨rfl, ?_⟩
  by_cases h0 : w.state = 0
  · simp [OldDeviceInfo.ofWire, DeviceStatus.tryFromU16, h0]
  · by_cases h1 : w.state = 1 <;>
      simp [OldDeviceInfo.ofWire, DeviceStatus.tryFromU16, h0, h1]

/-- C6: for every completion whose echoed id matches the submitted one, a
zero result makes `submit_and_wait` return success and any non-zero result
makes it return the OS-style error built from the negated raw result code,
with no internal retry. -/
theorem c6_completion_result (uniq : Nat) (cqe : Completion)
    (h : cqe.user_data = uniq) :
    (cqe.result = 0 → submitAndWait uniq cqe = some (Except.ok ()))
    ∧ (cqe.result ≠ 0 → submitAndWait uniq cqe = some (Except.error (-cqe.result))) := by
  constructor <;> intro hr <;> simp [submitAndWait, h, hr]

/-- Witness for C6: result `-22` (EINVAL) surfaces as the error built from
code 22. -/
theorem c6_witness :
    submitAndWait 7 { user_data := 7, result := -22 } = some (Except.error 22) := by
  have h := c6_completion_result 7 { user_data := 7, result := -22 } rfl
  simpa using h.2 (by norm_num)

/-- C7 counterexample: the request id is a `u64` counter, so after `2 ^ 64`
submitted commands it wraps — the id of submission number `2 ^ 64` is
smaller than the id of the preceding submission, refuting unconditional
strict monotonicity over the session's lifetime. -/
theorem c7_uniq_wrap_counterexample :
    (UblkCtrl.uniqAfter (2 ^ 64)).uniq < (UblkCtrl.uniqAfter (2 ^ 64 - 1)).uniq := by
  rw [UblkCtrl.uniqAfter_uniq, UblkCtrl.uniqAfter_uniq]
  norm_num

/-- C7 as amended: as long as fewer than `2 ^ 64` commands have been
submitted, each submission's request id is exactly the previous id plus one
(hence the ids are strictly increasing), and `submit_and_wait` treats the
completion as valid exactly when its echoed user-data id equals the id just
submitted, a mismatch being a panicking assertion rather than a recoverable
error. -/
theorem c7_uniq_monotone (n : Nat) (h : n + 1 < 2 ^ 64)
    (uniq : Nat) (cqe : Completion) :
    (UblkCtrl.uniqAfter (n + 1)).uniq = (UblkCtrl.uniqAfter n).uniq + 1
    ∧ (submitAndWait uniq cqe).isSome = (cqe.user_data == uniq) := by
  constructor
  · rw [UblkCtrl.uniqAfter_uniq, UblkCtrl.uniqAfter_uniq]
    omega
  · by_cases hm : cqe.user_data = uniq <;> simp [submitAndWait, hm]

/-- Witness for C7 at the first submission of a fresh session. -/
theorem c7_witness :
    (UblkCtrl.uniqAfter (0 + 1)).uniq = (UblkCtrl.uniqAfter 0).uniq + 1
    ∧ (submitAndWait 1 { user_data := 1, result := 0 }).isSome = (1 == 1) := by
  exact c7_uniq_monotone 0 (by norm_num) 1 { user_data := 1, result := 0 }

/-- C8: the wire record `add_device` encodes copies exactly `nr_hw_queues`,
`queue_depth`, `max_io_buf_bytes`, `flags.bits()` and `dev_id` from the
options, and every other field — state, both padding fields, the server pid
and the four reserved words — is zero. -/
theorem c8_add_device_record (o : DeviceOptions) :
    UblkCtrl.addDeviceRecord o =
      { nr_hw_queues := o.nr_hw_queues, queue_depth := o.queue_depth,
        state := 0, pad0 := 0, max_io_buf_bytes := o.max_io_buf_bytes,
        dev_id := o.dev_id, ublksrv_pid := 0, pad1 := 0,
        flags := o.flags.bits, unused0 := 0, unused1 := 0, unused2 := 0,
        unused3 := 0 } := rfl

/-- C9: for every CPU-set bitmap and core count, `get_cpu_list` returns
exactly the CPU indices below the core count whose bit is set in the bitmap
(so no index at or above the core count appears), in strictly increasing
order. -/
theorem c9_cpu_list (cores cpu_set i : Nat) :
    (i ∈ get_cpu_list cores cpu_set ↔ i < cores ∧ cpu_set.testBit i = true)
    ∧ (get_cpu_list cores cpu_set).Sorted (· < ·) := by
  constructor
  · simp [get_cpu_list, List.mem_filter, List.mem_range]
  · exact List.Pairwise.filter _ (List.pairwise_lt_range cores)

/-- C10: on every wire device-info record whose state field is 0 or 1, the
older library's decoder succeeds without panicking, reports `Live` exactly
when the newer library's decoder reports `active = true`, and the two
decoders agree on `dev_id`, `srv_pid`, `nr_hw_queues`, `queue_depth`,
`max_io_buf_bytes` and `flags`. -/
theorem c10_decoder_agreement (w : DevInfo) (h : w.state = 0 ∨ w.state = 1) :
    ∃ d, OldDeviceInfo.ofWire w = some d
      ∧ (d.state = DeviceStatus.Live ↔ (DeviceInfo.ofDevInfo w).active = true)
      ∧ d.dev_id = (DeviceInfo.ofDevInfo w).dev_id
      ∧ d.srv_pid = (DeviceInfo.ofDevInfo w).srv_pid
      ∧ d.nr_hw_queues = (DeviceInfo.ofDevInfo w).nr_hw_queues
      ∧ d.queue_depth = (DeviceInfo.ofDevInfo w).queue_depth
      ∧ d.max_io_buf_bytes = (DeviceInfo.ofDevInfo w).max_io_buf_bytes
      ∧ d.flags = (DeviceInfo.ofDevInfo w).flags := by
  rcases h with h | h
  · refine ⟨{ dev_id := w.dev_id, srv_pid := w.ublksrv_pid,
              state := DeviceStatus.Dead, nr_hw_queues := w.nr_hw_queues,
              queue_depth := w.queue_depth,
              max_io_buf_bytes := w.max_io_buf_bytes,
              flags := DeviceFlags.fromBitsTruncate w.flags },
        ?_, ?_, rfl, rfl, rfl, rfl, rfl, rfl⟩
    · simp [OldDeviceInfo.ofWire, DeviceStatus.tryFromU16, h]
    · simp [DeviceInfo.ofDevInfo, h, DevInfo.STATE_DEV_LIVE]
  · refine ⟨{ dev_id := w.dev_id, srv_pid := w.ublksrv_pid,
              state := DeviceStatus.Live, nr_hw_queues := w.nr_hw_queues,
              queue_depth := w.queue_depth,
              max_io_buf_bytes := w.max_io_buf_bytes,
              flags := DeviceFlags.fromBitsTruncate w.flags },
        ?_, ?_, rfl, rfl, rfl, rfl, rfl, rfl⟩
    · simp [OldDeviceInfo.ofWire, DeviceStatus.tryFromU16, h]
    · simp [DeviceInfo.ofDevInfo, h, DevInfo.STATE_DEV_LIVE]

/-- Witness for C10 at a concrete live record. -/
theorem c10_witness :
    ∃ d, OldDeviceInfo.ofWire { DevInfo.new with state := 1, dev_id := 3 } = some d
      ∧ (d.state = DeviceStatus.Live
          ↔ (DeviceInfo.ofDevInfo
              { DevInfo.new with state := 1, dev_id := 3 }).active = true)
      ∧ d.dev_id = (DeviceInfo.ofDevInfo
          { DevInfo.new with state := 1, dev_id := 3 }).dev_id
      ∧ d.srv_pid = (DeviceInfo.ofDevInfo
          { DevInfo.new with state := 1, dev_id := 3 }).srv_pid
      ∧ d.nr_hw_queues = (DeviceInfo.ofDevInfo
          { DevInfo.new with state := 1, dev_id := 3 }).nr_hw_queues
      ∧ d.queue_depth = (DeviceInfo.ofDevInfo
          { DevInfo.new with state := 1, dev_id := 3 }).queue_depth
      ∧ d.max_io_buf_bytes = (DeviceInfo.ofDevInfo
          { DevInfo.new with state := 1, dev_id := 3 }).max_io_buf_bytes
      ∧ d.flags = (DeviceInfo.ofDevInfo
          { DevInfo.new with state := 1, dev_id := 3 }).flags := by
  exact c10_decoder_agreement { DevInfo.new with state := 1, dev_id := 3 }
    (Or.inr rfl)
